import Mathlib

/-!
Verification of the test-data generation and response-validation layer of
the TestAutomationFramework repository (`tests/helpers/testData.js`).

The JavaScript values handled by this layer are embedded shallowly:
numbers are modelled as integers (every number this layer constructs or
compares is integral), strings as lists of characters, and objects as
association lists from key names to values.  Property lookup returns the
first binding of a key; JavaScript objects have unique keys, so this
agrees with JavaScript property access, and it also fixes a convention
for association lists that mention a key twice.
-/

set_option autoImplicit false

namespace TestData

/-- A JavaScript value, as far as `testData.js` manipulates them:
numbers (integral in this layer), strings, booleans, `null`, plain
objects, and function values.  `undefined` and arrays never reach this
layer.  A `vFun` is an opaque built-in function, tagged by its function
name; such values arise here only from reads that fall through to the
prototype chain in `createInvalidData`.  A function is truthy and its
`typeof` is `'function'`, not `'object'`. -/
inductive JSVal : Type where
  | vNum (n : Int)
  | vStr (s : List Char)
  | vBool (b : Bool)
  | vNull
  | vObj (fields : List (String × JSVal))
  | vFun (name : String)

/-- JavaScript property read `o[k]`: the first binding of key `k`, or
`none` when the key is absent. -/
def oget (fields : List (String × JSVal)) (k : String) : Option JSVal :=
  match fields with
  | [] => none
  | (k2, v) :: rest => if k2 = k then some v else oget rest k

/-- The JavaScript `k in o` test: key presence. -/
def hasKey (fields : List (String × JSVal)) (k : String) : Bool :=
  (oget fields k).isSome

/-- Property read on an arbitrary value: objects are looked up, every
other value has no own properties in this layer. -/
def ogetV (v : JSVal) (k : String) : Option JSVal :=
  match v with
  | .vObj fields => oget fields k
  | _ => none

/-- The character class `\s` of JavaScript regular expressions, which is
also the set of characters removed by `String.prototype.trim`:
whitespace, line terminators, and the Unicode space separators. -/
def jsWhitespace (c : Char) : Bool :=
  [0x09, 0x0A, 0x0B, 0x0C, 0x0D, 0x20, 0xA0, 0x1680,
   0x2028, 0x2029, 0x202F, 0x205F, 0x3000, 0xFEFF].contains c.toNat
  || (0x2000 ≤ c.toNat && c.toNat ≤ 0x200A)

/-- `String.prototype.trim`: strip leading and trailing whitespace. -/
def jsTrim (s : List Char) : List Char :=
  ((s.dropWhile jsWhitespace).reverse.dropWhile jsWhitespace).reverse

/-- The character class `[^\s@]` used by the validator email pattern. -/
def emailCls (c : Char) : Bool :=
  !jsWhitespace c && c != '@'

/-- Final segment `cls+$` of the email pattern: one or more characters of
class `cls`, reaching the end of the string. -/
def matchFinalSeg (cls : Char → Bool) (l : List Char) : Bool :=
  !l.isEmpty && l.all cls

/-- Part of the email pattern after the literal `@` and after at least one
domain character: the remaining `[^\s@]*\.cls+$`, trying the literal dot
at every position exactly as regex backtracking does (`.` itself belongs
to `[^\s@]`, so both alternatives are open at a dot). -/
def matchDomainRest (cls : Char → Bool) : List Char → Bool
  | [] => false
  | c :: rest =>
      (c == '.' && matchFinalSeg cls rest) || (emailCls c && matchDomainRest cls rest)

/-- Part of the email pattern after the literal `@`: `[^\s@]+\.cls+$`.
The first character must belong to the domain segment, which is
non-empty. -/
def matchDomain (cls : Char → Bool) : List Char → Bool
  | [] => false
  | c :: rest => emailCls c && matchDomainRest cls rest

/-- Part of the email pattern after at least one local character: the
remaining `[^\s@]*@[^\s@]+\.cls+$`.  The class `[^\s@]` excludes `@`, so
the two alternatives never overlap. -/
def matchLocalRest (cls : Char → Bool) : List Char → Bool
  | [] => false
  | c :: rest =>
      (c == '@' && matchDomain cls rest) || (emailCls c && matchLocalRest cls rest)

/-- Anchored match of the pattern `^[^\s@]+@[^\s@]+\.cls+$`, parameterised
by the class `cls` of the final segment. -/
def emailRegexMatch (cls : Char → Bool) (l : List Char) : Bool :=
  match l with
  | [] => false
  | c :: rest => emailCls c && matchLocalRest cls rest

/-- The email test of `validateUser`: the regular expression
`/^[^\s@]+@[^\s@]+\.[^\s@]+$/` of the source, whose final segment again
uses the class `[^\s@]`. -/
def codeEmailTest (l : List Char) : Bool :=
  emailRegexMatch emailCls l

/-- Modelled from the spec: the email pattern as the specification
describes it, "one-or-more non-space-non-@ characters, @, one-or-more
non-space-non-@ characters, ., one-or-more non-space characters" — the
final segment is only required to avoid whitespace.  Stated separately so
it can be compared with `codeEmailTest`, the pattern of the source. -/
def specEmailPattern (l : List Char) : Bool :=
  emailRegexMatch (fun c => !jsWhitespace c) l

/-- String coercion as applied by `RegExp.test` to its argument
(numbers are integral in this layer, so integer printing is the
JavaScript rendering). -/
def jsToChars : JSVal → List Char
  | .vStr s => s
  | .vNum n => (toString n).toList
  | .vBool true => "true".toList
  | .vBool false => "false".toList
  | .vNull => "null".toList
  | .vObj _ => "[object Object]".toList
  | .vFun f => "function ".toList ++ f.toList ++ "() \x7b [native code] \x7d".toList

/-- Message of `validatePost` for a non-object argument. -/
def postMustBeObjectMsg : List Char := "Post must be an object".toList

/-- Aggregated missing-fields message of `validatePost`. -/
def postMissingMsg (missing : List String) : List Char :=
  "Post missing required fields: ".toList ++ (String.intercalate ", " missing).toList

/-- Message of `validatePost` for a bad `id`. -/
def postIdMsg : List Char := "Post ID must be a positive number".toList

/-- Message of `validatePost` for a bad `userId`. -/
def postUserIdMsg : List Char := "User ID must be a positive number".toList

/-- Message of `validatePost` for a bad `title`. -/
def postTitleMsg : List Char := "Post title must be a non-empty string".toList

/-- Message of `validatePost` for a bad `body`. -/
def postBodyMsg : List Char := "Post body must be a non-empty string".toList

/-- The required fields of a post, in source order. -/
def postRequiredFields : List String := ["id", "userId", "title", "body"]

/-- `ResponseValidators.validatePost`.  The guard
`!post || typeof post !== 'object'` admits exactly the plain objects of
this value model: `null` is falsy, and every non-object value of `JSVal`
has a `typeof` other than `'object'`.  A present field whose value is not
a number (resp. not a string) fails the corresponding `typeof` test and
produces the same message as a non-positive number (resp. blank
string). -/
def validatePost (post : JSVal) : Except (List Char) Unit :=
  match post with
  | .vObj fields =>
    let missingFields := postRequiredFields.filter (fun f => !hasKey fields f)
    if missingFields ≠ [] then
      .error (postMissingMsg missingFields)
    else
      match oget fields "id" with
      | some (.vNum n) =>
        if n ≤ 0 then .error postIdMsg else
        match oget fields "userId" with
        | some (.vNum m) =>
          if m ≤ 0 then .error postUserIdMsg else
          match oget fields "title" with
          | some (.vStr t) =>
            if jsTrim t = [] then .error postTitleMsg else
            match oget fields "body" with
            | some (.vStr b) =>
              if jsTrim b = [] then .error postBodyMsg else .ok ()
            | _ => .error postBodyMsg
          | _ => .error postTitleMsg
        | _ => .error postUserIdMsg
      | _ => .error postIdMsg
  | _ => .error postMustBeObjectMsg

/-- Message of `validateUser` for a non-object argument. -/
def userMustBeObjectMsg : List Char := "User must be an object".toList

/-- Aggregated missing-fields message of `validateUser`. -/
def userMissingMsg (missing : List String) : List Char :=
  "User missing required fields: ".toList ++ (String.intercalate ", " missing).toList

/-- Message of `validateUser` for an email rejected by the pattern. -/
def userEmailMsg : List Char := "User email must be valid format".toList

/-- The required fields of a user, in source order. -/
def userRequiredFields : List String := ["id", "name", "username", "email"]

/-- `ResponseValidators.validateUser`.  After the presence check the only
further test is the email pattern; `RegExp.test` coerces its argument to
a string first. -/
def validateUser (user : JSVal) : Except (List Char) Unit :=
  match user with
  | .vObj fields =>
    let missingFields := userRequiredFields.filter (fun f => !hasKey fields f)
    if missingFields ≠ [] then
      .error (userMissingMsg missingFields)
    else
      match oget fields "email" with
      | some v =>
        if codeEmailTest (jsToChars v) then .ok () else .error userEmailMsg
      | none => .error userEmailMsg
  | _ => .error userMustBeObjectMsg

/-- Message of `validateComment` for a non-object argument. -/
def commentMustBeObjectMsg : List Char := "Comment must be an object".toList

/-- Aggregated missing-fields message of `validateComment`. -/
def commentMissingMsg (missing : List String) : List Char :=
  "Comment missing required fields: ".toList ++ (String.intercalate ", " missing).toList

/-- The required fields of a comment, in source order. -/
def commentRequiredFields : List String := ["id", "postId", "name", "email", "body"]

/-- `ResponseValidators.validateComment`: an object check and a presence
check, nothing else. -/
def validateComment (comment : JSVal) : Except (List Char) Unit :=
  match comment with
  | .vObj fields =>
    let missingFields := commentRequiredFields.filter (fun f => !hasKey fields f)
    if missingFields ≠ [] then
      .error (commentMissingMsg missingFields)
    else
      .ok ()
  | _ => .error commentMustBeObjectMsg

/-- `TestDataFactory.generateId`:
`Date.now() + Math.floor(Math.random() * 1000)`, with the clock reading
(milliseconds) and the random draw (an integer in `[0, 1000)`) passed
explicitly. -/
def generateId (now rand : Nat) : Nat := now + rand

/-- Digit character of a decimal digit. -/
def digitChar10 (d : Nat) : Char := Char.ofNat (48 + d)

/-- Decimal rendering of a natural number, as produced by a JavaScript
template literal for an integral number. -/
def natChars (n : Nat) : List Char :=
  if n = 0 then ['0'] else (Nat.digits 10 n).reverse.map digitChar10

/-- The JavaScript object spread `{...base, ...overrides}`, embedded by
its property-lookup behaviour: a key bound in `overrides` has the value
`overrides` gives it, every other key keeps the `base` binding.  Shadowed
`base` entries are dropped so that first-binding lookup agrees with
JavaScript property access. -/
def spreadMerge (base overrides : List (String × JSVal)) : List (String × JSVal) :=
  base.filter (fun p => !hasKey overrides p.1) ++ overrides

/-- The default fields of `TestDataFactory.createPost`. -/
def postDefaults : List (String × JSVal) :=
  [("userId", .vNum 1),
   ("title", .vStr "Test Post Title".toList),
   ("body", .vStr "This is a test post body with meaningful content.".toList)]

/-- `TestDataFactory.createPost`. -/
def createPost (overrides : List (String × JSVal)) : JSVal :=
  .vObj (spreadMerge postDefaults overrides)

/-- The default fields of `TestDataFactory.createUser`, built from the
generated id.  Note that no `id` field is among them. -/
def userDefaults (id : Nat) : List (String × JSVal) :=
  [("name", .vStr "Test User".toList),
   ("username", .vStr ("testuser".toList ++ natChars id)),
   ("email", .vStr ("test".toList ++ natChars id ++ "@example.com".toList)),
   ("address", .vObj
     [("street", .vStr "Test Street".toList),
      ("suite", .vStr "Apt. 123".toList),
      ("city", .vStr "Test City".toList),
      ("zipcode", .vStr "12345".toList),
      ("geo", .vObj
        [("lat", .vStr "0.0000".toList),
         ("lng", .vStr "0.0000".toList)])]),
   ("phone", .vStr "1-234-567-8901".toList),
   ("website", .vStr "testuser.com".toList),
   ("company", .vObj
     [("name", .vStr "Test Company".toList),
      ("catchPhrase", .vStr "Testing excellence".toList),
      ("bs", .vStr "quality assurance".toList)])]

/-- `TestDataFactory.createUser`, with the result of `generateId` passed
explicitly. -/
def createUser (id : Nat) (overrides : List (String × JSVal)) : JSVal :=
  .vObj (spreadMerge (userDefaults id) overrides)

/-- The default fields of `TestDataFactory.createComment`, built from the
generated id. -/
def commentDefaults (id : Nat) : List (String × JSVal) :=
  [("postId", .vNum 1),
   ("name", .vStr "Test Comment".toList),
   ("email", .vStr ("commenter".toList ++ natChars id ++ "@example.com".toList)),
   ("body", .vStr "This is a test comment with valuable feedback.".toList)]

/-- `TestDataFactory.createComment`, with the result of `generateId`
passed explicitly. -/
def createComment (id : Nat) (overrides : List (String × JSVal)) : JSVal :=
  .vObj (spreadMerge (commentDefaults id) overrides)

/-- The six deliberately malformed payloads of
`TestDataFactory.createInvalidData`, keyed by name.  The `sqlInjection`
title starts with a single-quote character (code point 39). -/
def invalidPatterns : List (String × JSVal) :=
  [("emptyPost", .vObj []),
   ("missingRequiredFields", .vObj [("title", .vStr "Only Title".toList)]),
   ("invalidTypes", .vObj
     [("userId", .vStr "not-a-number".toList),
      ("title", .vNum 123)]),
   ("oversizedData", .vObj
     [("title", .vStr (List.replicate 1000 'x')),
      ("body", .vStr (List.replicate 10000 'y'))]),
   ("sqlInjection", .vObj
     [("title", .vStr (Char.ofNat 39 :: "; DROP TABLE posts; --".toList)),
      ("body", .vStr "1 OR 1=1".toList)]),
   ("xssAttempt", .vObj
     [("title", .vStr "<script>alert(\"xss\")</script>".toList),
      ("body", .vStr "<img src=x onerror=alert(1)>".toList)])]

/-- The own property table of `Object.prototype`: its eleven
function-valued members, and nothing else this development reads.  The
values are opaque built-in functions, tagged by their function names
(the `constructor` property holds the function named `Object`).  The
receiver-dependent `__proto__` accessor, also an own property of
`Object.prototype`, is handled in `protoGet`; no property read performed
in this development distinguishes the two representations. -/
def objectPrototypeFields : List (String × JSVal) :=
  [("constructor", .vFun "Object"),
   ("hasOwnProperty", .vFun "hasOwnProperty"),
   ("isPrototypeOf", .vFun "isPrototypeOf"),
   ("propertyIsEnumerable", .vFun "propertyIsEnumerable"),
   ("toLocaleString", .vFun "toLocaleString"),
   ("toString", .vFun "toString"),
   ("valueOf", .vFun "valueOf"),
   ("__defineGetter__", .vFun "__defineGetter__"),
   ("__defineSetter__", .vFun "__defineSetter__"),
   ("__lookupGetter__", .vFun "__lookupGetter__"),
   ("__lookupSetter__", .vFun "__lookupSetter__")]

/-- The `Object.prototype` object itself, as an object value. -/
def objectPrototype : JSVal := .vObj objectPrototypeFields

/-- Inherited property read on a plain object literal, which JavaScript
bracket lookup performs when the own properties miss: the members of
`Object.prototype`.  Reading the `__proto__` accessor on a plain object
literal yields the receiver's prototype, `Object.prototype` itself;
every other member is one of the eleven built-in functions. -/
def protoGet (k : String) : Option JSVal :=
  if k = "__proto__" then some objectPrototype
  else oget objectPrototypeFields k

/-- `TestDataFactory.createInvalidData`, that is
`invalidPatterns[type] || {}`.  The bracket lookup walks the prototype
chain: an own entry of the table is returned (every own value is an
object, hence truthy, so `|| {}` never fires on it); failing that, an
inherited `Object.prototype` member is returned (a function or the
prototype object, both truthy, so `|| {}` never fires on it either);
only when both miss does the read give `undefined`, which is falsy, and
the empty object is returned. -/
def createInvalidData (kind : String) : JSVal :=
  match oget invalidPatterns kind with
  | some v => v
  | none =>
    match protoGet kind with
    | some v => v
    | none => .vObj []

/-- Shape test used to state the object guards: exactly the values
accepted by `!x || typeof x !== 'object'` in this value model. -/
def isObjB (v : JSVal) : Bool :=
  match v with
  | .vObj _ => true
  | _ => false

/-- A value that is a positive number, the property required of `id` and
`userId` by `validatePost` (`typeof x === 'number' && x > 0`). -/
def isPosNum (v : JSVal) : Bool :=
  match v with
  | .vNum n => decide (0 < n)
  | _ => false

/-- A value that is a non-blank string, the property required of `title`
and `body` by `validatePost` (`typeof x === 'string' && x.trim() !== ''`). -/
def isNonBlankStr (v : JSVal) : Bool :=
  match v with
  | .vStr s => decide (jsTrim s ≠ [])
  | _ => false

/-! ### Lookup laws of the object spread -/

theorem oget_spreadMerge (base overrides : List (String × JSVal)) (k : String) :
    oget (spreadMerge base overrides) k =
      if hasKey overrides k then oget overrides k else oget base k := by
  induction base with
  | nil =>
      cases ho : oget overrides k with
      | none => simp [spreadMerge, oget, hasKey, ho]
      | some v => simp [spreadMerge, oget, hasKey, ho]
  | cons p rest ih =>
      obtain ⟨k2, v⟩ := p
      simp only [spreadMerge, List.filter_cons] at ih ⊢
      by_cases hk2 : hasKey overrides k2
      · simp only [hk2, Bool.not_true, Bool.false_eq_true, if_false]
        rw [ih]
        by_cases hkk : k2 = k
        · subst hkk
          simp [hk2]
        · simp [oget, hkk]
      · have hk2f : hasKey overrides k2 = false := by simpa using hk2
        simp only [hk2f, Bool.not_false, if_true]
        by_cases hkk : k2 = k
        · subst hkk
          simp [oget, hk2f]
        · simpa [oget, hkk] using ih

theorem hasKey_spreadMerge (base overrides : List (String × JSVal)) (k : String) :
    hasKey (spreadMerge base overrides) k = (hasKey overrides k || hasKey base k) := by
  simp only [hasKey, oget_spreadMerge]
  by_cases h : (oget overrides k).isSome
  · simp [h]
  · simp only [h, Bool.false_eq_true, if_false, Bool.false_or]

theorem spreadMerge_nil (base : List (String × JSVal)) :
    spreadMerge base [] = base := by
  simp [spreadMerge, hasKey, oget]

/-! ### Injectivity of the decimal rendering -/

theorem digitChar10_inj {a b : Nat} (ha : a < 10) (hb : b < 10)
    (h : digitChar10 a = digitChar10 b) : a = b := by
  interval_cases a <;> interval_cases b <;> revert h <;> decide

theorem map_digitChar10_inj {l1 l2 : List Nat}
    (h1 : ∀ d ∈ l1, d < 10) (h2 : ∀ d ∈ l2, d < 10)
    (h : l1.map digitChar10 = l2.map digitChar10) : l1 = l2 := by
  induction l1 generalizing l2 with
  | nil =>
      cases l2 with
      | nil => rfl
      | cons b t => simp at h
  | cons a t ih =>
      cases l2 with
      | nil => simp at h
      | cons b t2 =>
          simp only [List.map_cons, List.cons.injEq] at h
          have hab := digitChar10_inj (h1 a (by simp)) (h2 b (by simp)) h.1
          subst hab
          have ht := ih (fun d hd => h1 d (by simp [hd]))
            (fun d hd => h2 d (by simp [hd])) h.2
          simp [ht]

theorem natChars_inj {m n : Nat} (h : natChars m = natChars n) : m = n := by
  have digitsBound : ∀ k : Nat, ∀ d ∈ (Nat.digits 10 k).reverse, d < 10 := by
    intro k d hd
    exact Nat.digits_lt_base (by norm_num) (List.mem_reverse.mp hd)
  by_cases hm : m = 0 <;> by_cases hn : n = 0
  · omega
  · exfalso
    simp only [natChars, hm, if_pos, hn, if_neg, reduceIte] at h
    have h0 : (Nat.digits 10 n).reverse.map digitChar10 = ['0'] := h.symm
    have : (Nat.digits 10 n).reverse = [0] := by
      cases hrev : (Nat.digits 10 n).reverse with
      | nil => rw [hrev] at h0; simp at h0
      | cons d rest =>
          rw [hrev] at h0
          simp only [List.map_cons, List.cons.injEq] at h0
          have hd10 : d < 10 := digitsBound n d (by simp [hrev])
          have : d = 0 := digitChar10_inj hd10 (by norm_num) (by simpa using h0.1)
          subst this
          cases rest with
          | nil => rfl
          | cons e r => simp at h0
    have hdig : Nat.digits 10 n = [0] := by
      have := congrArg List.reverse this
      simpa using this
    have := Nat.ofDigits_digits 10 n
    rw [hdig] at this
    simp [Nat.ofDigits] at this
    omega
  · exfalso
    simp only [natChars, hm, hn, reduceIte] at h
    have h0 : (Nat.digits 10 m).reverse.map digitChar10 = ['0'] := h
    have : (Nat.digits 10 m).reverse = [0] := by
      cases hrev : (Nat.digits 10 m).reverse with
      | nil => rw [hrev] at h0; simp at h0
      | cons d rest =>
          rw [hrev] at h0
          simp only [List.map_cons, List.cons.injEq] at h0
          have hd10 : d < 10 := digitsBound m d (by simp [hrev])
          have : d = 0 := digitChar10_inj hd10 (by norm_num) (by simpa using h0.1)
          subst this
          cases rest with
          | nil => rfl
          | cons e r => simp at h0
    have hdig : Nat.digits 10 m = [0] := by
      have := congrArg List.reverse this
      simpa using this
    have := Nat.ofDigits_digits 10 m
    rw [hdig] at this
    simp [Nat.ofDigits] at this
    omega
  · simp only [natChars, hm, hn, reduceIte] at h
    have hrev := map_digitChar10_inj (digitsBound m) (digitsBound n) h
    have hdig : Nat.digits 10 m = Nat.digits 10 n := by
      have := congrArg List.reverse hrev
      simpa using this
    have h1 := Nat.ofDigits_digits 10 m
    have h2 := Nat.ofDigits_digits 10 n
    rw [hdig] at h1
    omega

/-! ### Characterisation of the validators -/

theorem validatePost_not_obj (v : JSVal) (h : isObjB v = false) :
    validatePost v = .error postMustBeObjectMsg := by
  cases v <;> simp_all [isObjB, validatePost]

theorem validatePost_missing (fields : List (String × JSVal))
    (h : postRequiredFields.filter (fun f => !hasKey fields f) ≠ []) :
    validatePost (.vObj fields) =
      .error (postMissingMsg (postRequiredFields.filter (fun f => !hasKey fields f))) := by
  simp [validatePost, h]

theorem validatePost_bad_id (fields : List (String × JSVal)) (v : JSVal)
    (h1 : hasKey fields "id" = true) (h2 : hasKey fields "userId" = true)
    (h3 : hasKey fields "title" = true) (h4 : hasKey fields "body" = true)
    (hid : oget fields "id" = some v) (hbad : isPosNum v = false) :
    validatePost (.vObj fields) = .error postIdMsg := by
  cases v with
  | vNum n =>
      have hn : n ≤ 0 := by
        simp only [isPosNum, decide_eq_false_iff_not, not_lt] at hbad
        exact hbad
      simp [validatePost, postRequiredFields, h1, h2, h3, h4, hid, hn]
  | vStr s => simp [validatePost, postRequiredFields, h1, h2, h3, h4, hid]
  | vBool b => simp [validatePost, postRequiredFields, h1, h2, h3, h4, hid]
  | vNull => simp [validatePost, postRequiredFields, h1, h2, h3, h4, hid]
  | vObj l => simp [validatePost, postRequiredFields, h1, h2, h3, h4, hid]
  | vFun f => simp [validatePost, postRequiredFields, h1, h2, h3, h4, hid]

theorem validatePost_bad_userId (fields : List (String × JSVal)) (v : JSVal)
    (h1 : hasKey fields "id" = true) (h2 : hasKey fields "userId" = true)
    (h3 : hasKey fields "title" = true) (h4 : hasKey fields "body" = true)
    (hid : ∃ n : Int, oget fields "id" = some (.vNum n) ∧ 0 < n)
    (huid : oget fields "userId" = some v) (hbad : isPosNum v = false) :
    validatePost (.vObj fields) = .error postUserIdMsg := by
  obtain ⟨n, hid, hn⟩ := hid
  have hn2 : ¬n ≤ 0 := by omega
  cases v with
  | vNum m =>
      have hm : m ≤ 0 := by
        simp only [isPosNum, decide_eq_false_iff_not, not_lt] at hbad
        exact hbad
      simp [validatePost, postRequiredFields, h1, h2, h3, h4, hid, hn2, huid, hm]
  | vStr s => simp [validatePost, postRequiredFields, h1, h2, h3, h4, hid, hn2, huid]
  | vBool b => simp [validatePost, postRequiredFields, h1, h2, h3, h4, hid, hn2, huid]
  | vNull => simp [validatePost, postRequiredFields, h1, h2, h3, h4, hid, hn2, huid]
  | vObj l => simp [validatePost, postRequiredFields, h1, h2, h3, h4, hid, hn2, huid]
  | vFun f => simp [validatePost, postRequiredFields, h1, h2, h3, h4, hid, hn2, huid]

theorem validatePost_bad_title (fields : List (String × JSVal)) (v : JSVal)
    (h1 : hasKey fields "id" = true) (h2 : hasKey fields "userId" = true)
    (h3 : hasKey fields "title" = true) (h4 : hasKey fields "body" = true)
    (hid : ∃ n : Int, oget fields "id" = some (.vNum n) ∧ 0 < n)
    (huid : ∃ n : Int, oget fields "userId" = some (.vNum n) ∧ 0 < n)
    (ht : oget fields "title" = some v) (hbad : isNonBlankStr v = false) :
    validatePost (.vObj fields) = .error postTitleMsg := by
  obtain ⟨n, hid, hn⟩ := hid
  obtain ⟨m, huid, hm⟩ := huid
  have hn2 : ¬n ≤ 0 := by omega
  have hm2 : ¬m ≤ 0 := by omega
  cases v with
  | vStr s =>
      have hs : jsTrim s = [] := by
        simp only [isNonBlankStr, decide_eq_false_iff_not, not_not] at hbad
        exact hbad
      simp [validatePost, postRequiredFields, h1, h2, h3, h4, hid, hn2, huid, hm2, ht, hs]
  | vNum p => simp [validatePost, postRequiredFields, h1, h2, h3, h4, hid, hn2, huid, hm2, ht]
  | vBool b => simp [validatePost, postRequiredFields, h1, h2, h3, h4, hid, hn2, huid, hm2, ht]
  | vNull => simp [validatePost, postRequiredFields, h1, h2, h3, h4, hid, hn2, huid, hm2, ht]
  | vObj l => simp [validatePost, postRequiredFields, h1, h2, h3, h4, hid, hn2, huid, hm2, ht]
  | vFun f => simp [validatePost, postRequiredFields, h1, h2, h3, h4, hid, hn2, huid, hm2, ht]

theorem validatePost_bad_body (fields : List (String × JSVal)) (v : JSVal)
    (h1 : hasKey fields "id" = true) (h2 : hasKey fields "userId" = true)
    (h3 : hasKey fields "title" = true) (h4 : hasKey fields "body" = true)
    (hid : ∃ n : Int, oget fields "id" = some (.vNum n) ∧ 0 < n)
    (huid : ∃ n : Int, oget fields "userId" = some (.vNum n) ∧ 0 < n)
    (ht : ∃ s, oget fields "title" = some (.vStr s) ∧ jsTrim s ≠ [])
    (hb : oget fields "body" = some v) (hbad : isNonBlankStr v = false) :
    validatePost (.vObj fields) = .error postBodyMsg := by
  obtain ⟨n, hid, hn⟩ := hid
  obtain ⟨m, huid, hm⟩ := huid
  obtain ⟨t, ht, ht2⟩ := ht
  have hn2 : ¬n ≤ 0 := by omega
  have hm2 : ¬m ≤ 0 := by omega
  cases v with
  | vStr s =>
      have hs : jsTrim s = [] := by
        simp only [isNonBlankStr, decide_eq_false_iff_not, not_not] at hbad
        exact hbad
      simp [validatePost, postRequiredFields, h1, h2, h3, h4, hid, hn2, huid, hm2,
        ht, ht2, hb, hs]
  | vNum p => simp [validatePost, postRequiredFields, h1, h2, h3, h4, hid, hn2, huid, hm2, ht, ht2, hb]
  | vBool b => simp [validatePost, postRequiredFields, h1, h2, h3, h4, hid, hn2, huid, hm2, ht, ht2, hb]
  | vNull => simp [validatePost, postRequiredFields, h1, h2, h3, h4, hid, hn2, huid, hm2, ht, ht2, hb]
  | vObj l => simp [validatePost, postRequiredFields, h1, h2, h3, h4, hid, hn2, huid, hm2, ht, ht2, hb]
  | vFun f => simp [validatePost, postRequiredFields, h1, h2, h3, h4, hid, hn2, huid, hm2, ht, ht2, hb]

theorem validatePost_ok_iff (v : JSVal) :
    validatePost v = .ok () ↔
      ∃ fields, v = .vObj fields ∧
        (∃ n : Int, oget fields "id" = some (.vNum n) ∧ 0 < n) ∧
        (∃ n : Int, oget fields "userId" = some (.vNum n) ∧ 0 < n) ∧
        (∃ s, oget fields "title" = some (.vStr s) ∧ jsTrim s ≠ []) ∧
        (∃ s, oget fields "body" = some (.vStr s) ∧ jsTrim s ≠ []) := by
  cases v with
  | vNum n => simp [validatePost]
  | vStr s => simp [validatePost]
  | vBool b => simp [validatePost]
  | vNull => simp [validatePost]
  | vFun f => simp [validatePost]
  | vObj fields =>
      constructor
      · intro h
        refine ⟨fields, rfl, ?_⟩
        simp only [validatePost] at h
        split at h
        · exact absurd h (by simp)
        · split at h
          · rename_i n heq
            split at h
            · exact absurd h (by simp)
            · rename_i hn
              split at h
              · rename_i m heq2
                split at h
                · exact absurd h (by simp)
                · rename_i hm
                  split at h
                  · rename_i t heq3
                    split at h
                    · exact absurd h (by simp)
                    · rename_i ht
                      split at h
                      · rename_i b heq4
                        split at h
                        · exact absurd h (by simp)
                        · rename_i hb
                          exact ⟨⟨n, heq, by omega⟩, ⟨m, heq2, by omega⟩,
                            ⟨t, heq3, ht⟩, ⟨b, heq4, hb⟩⟩
                      · exact absurd h (by simp)
                  · exact absurd h (by simp)
              · exact absurd h (by simp)
          · exact absurd h (by simp)
      · rintro ⟨fields2, hf, ⟨n, hid, hn⟩, ⟨m, huid, hm⟩, ⟨t, ht, ht2⟩, ⟨b, hb, hb2⟩⟩
        cases hf
        have hn2 : ¬n ≤ 0 := by omega
        have hm2 : ¬m ≤ 0 := by omega
        simp [validatePost, postRequiredFields, hasKey, hid, huid, ht, hb,
          hn2, hm2, ht2, hb2]

theorem validateUser_not_obj (v : JSVal) (h : isObjB v = false) :
    validateUser v = .error userMustBeObjectMsg := by
  cases v <;> simp_all [isObjB, validateUser]

theorem validateUser_missing (fields : List (String × JSVal))
    (h : userRequiredFields.filter (fun f => !hasKey fields f) ≠ []) :
    validateUser (.vObj fields) =
      .error (userMissingMsg (userRequiredFields.filter (fun f => !hasKey fields f))) := by
  simp [validateUser, h]

theorem validateUser_eval (fields : List (String × JSVal)) (v : JSVal)
    (h1 : hasKey fields "id" = true) (h2 : hasKey fields "name" = true)
    (h3 : hasKey fields "username" = true) (h4 : hasKey fields "email" = true)
    (he : oget fields "email" = some v) :
    validateUser (.vObj fields) =
      if codeEmailTest (jsToChars v) then .ok () else .error userEmailMsg := by
  simp [validateUser, userRequiredFields, h1, h2, h3, h4, he]

theorem validateComment_ok_iff (v : JSVal) :
    validateComment v = .ok () ↔
      ∃ fields, v = .vObj fields ∧
        hasKey fields "id" = true ∧ hasKey fields "postId" = true ∧
        hasKey fields "name" = true ∧ hasKey fields "email" = true ∧
        hasKey fields "body" = true := by
  cases v with
  | vNum n => simp [validateComment]
  | vStr s => simp [validateComment]
  | vBool b => simp [validateComment]
  | vNull => simp [validateComment]
  | vFun f => simp [validateComment]
  | vObj fields =>
      constructor
      · intro h
        refine ⟨fields, rfl, ?_⟩
        simp only [validateComment] at h
        split at h
        · exact absurd h (by simp)
        · rename_i hmiss
          simp only [ne_eq, not_not, List.filter_eq_nil_iff, commentRequiredFields] at hmiss
          refine ⟨?_, ?_, ?_, ?_, ?_⟩ <;>
            simpa using hmiss _ (by simp)
      · rintro ⟨fields2, hf, haa, hb, hc, hd, he⟩
        cases hf
        simp [validateComment, commentRequiredFields, haa, hb, hc, hd, he]

theorem validateComment_missing (fields : List (String × JSVal))
    (h : commentRequiredFields.filter (fun f => !hasKey fields f) ≠ []) :
    validateComment (.vObj fields) =
      .error (commentMissingMsg (commentRequiredFields.filter (fun f => !hasKey fields f))) := by
  simp [validateComment, h]

/-! ### Claims -/

/-- Claim C1: `validatePost` fails with a descriptive error on every
non-object; the example with `id = -1` fails, as does the example with a
whitespace-only title; and it succeeds (returns nothing) exactly on the
objects whose four fields `id, userId, title, body` are present with
`id` and `userId` positive numbers and `title` and `body` non-blank
strings. -/
theorem claim_C1 :
    (∀ v, isObjB v = false → validatePost v = .error postMustBeObjectMsg) ∧
    validatePost (.vObj [("id", .vNum (-1)), ("userId", .vNum 1),
      ("title", .vStr "a".toList), ("body", .vStr "b".toList)]) = .error postIdMsg ∧
    validatePost (.vObj [("id", .vNum 1), ("userId", .vNum 1),
      ("title", .vStr "   ".toList), ("body", .vStr "b".toList)]) = .error postTitleMsg ∧
    (∀ v, validatePost v = .ok () ↔
      ∃ fields, v = .vObj fields ∧
        (∃ n : Int, oget fields "id" = some (.vNum n) ∧ 0 < n) ∧
        (∃ n : Int, oget fields "userId" = some (.vNum n) ∧ 0 < n) ∧
        (∃ s, oget fields "title" = some (.vStr s) ∧ jsTrim s ≠ []) ∧
        (∃ s, oget fields "body" = some (.vStr s) ∧ jsTrim s ≠ [])) :=
  ⟨validatePost_not_obj, rfl, rfl, validatePost_ok_iff⟩

/-- Witness for C1: a concrete non-object rejection and a concrete
fully-valid post acceptance. -/
theorem claim_C1_witness :
    validatePost .vNull = .error postMustBeObjectMsg ∧
    validatePost (.vObj [("id", .vNum 2), ("userId", .vNum 3),
      ("title", .vStr "a".toList), ("body", .vStr "b".toList)]) = .ok () :=
  ⟨claim_C1.1 .vNull rfl,
   (claim_C1.2.2.2 _).mpr ⟨_, rfl, ⟨2, rfl, by decide⟩, ⟨3, rfl, by decide⟩,
     ⟨_, rfl, by decide⟩, ⟨_, rfl, by decide⟩⟩⟩

/-- Claim C2: the override precedence law.  A key bound in the overrides
object keeps exactly the override value in the factory result (so a
nested object fully replaces a default, shallow merge), and a key absent
from the overrides keeps the default binding; this holds for
`createPost`, `createUser` and `createComment` with their respective
defaults, and the `createPost` defaults are the three stated ones. -/
theorem claim_C2 (o : List (String × JSVal)) (k : String) (i : Nat) :
    (oget postDefaults "userId" = some (.vNum 1) ∧
     oget postDefaults "title" = some (.vStr "Test Post Title".toList) ∧
     oget postDefaults "body" =
       some (.vStr "This is a test post body with meaningful content.".toList)) ∧
    (∀ val, oget o k = some val →
      ogetV (createPost o) k = some val ∧
      ogetV (createUser i o) k = some val ∧
      ogetV (createComment i o) k = some val) ∧
    (oget o k = none →
      ogetV (createPost o) k = oget postDefaults k ∧
      ogetV (createUser i o) k = oget (userDefaults i) k ∧
      ogetV (createComment i o) k = oget (commentDefaults i) k) := by
  refine ⟨⟨rfl, rfl, rfl⟩, ?_, ?_⟩
  · intro val hv
    have hk : hasKey o k = true := by simp [hasKey, hv]
    simp [createPost, createUser, createComment, ogetV, oget_spreadMerge, hk, hv]
  · intro hv
    have hk : hasKey o k = false := by simp [hasKey, hv]
    simp [createPost, createUser, createComment, ogetV, oget_spreadMerge, hk]

/-- Witness for C2: a present key (with a nested-object value, replacing
nothing by parts) wins, an absent key keeps its default. -/
theorem claim_C2_witness :
    ogetV (createPost [("title", .vObj [("x", .vNum 4)])]) "title" =
      some (.vObj [("x", .vNum 4)]) ∧
    ogetV (createPost [("title", .vObj [("x", .vNum 4)])]) "userId" = some (.vNum 1) :=
  ⟨((claim_C2 [("title", .vObj [("x", .vNum 4)])] "title" 0).2.1 _ rfl).1,
   ((claim_C2 [("title", .vObj [("x", .vNum 4)])] "userId" 0).2.2 rfl).1⟩

/-- Counterexample to C3 as stated: the string `a@b.c@d` matches the
pattern the claim describes (whose final segment only excludes
whitespace), yet `validateUser` rejects an otherwise complete user
carrying it, because the final segment of the source pattern also
excludes `@`. -/
theorem claim_C3_counterexample :
    specEmailPattern "a@b.c@d".toList = true ∧
    validateUser (.vObj [("id", .vNum 1), ("name", .vStr "n".toList),
      ("username", .vStr "u".toList), ("email", .vStr "a@b.c@d".toList)]) =
      .error userEmailMsg :=
  ⟨rfl, rfl⟩

/-- Claim C3 as amended: with the final segment of the pattern read as
one-or-more non-space-non-@ characters (the pattern of the source),
`validateUser` fails on non-objects, fails listing the absent required
fields, and on an object with `id, name, username, email` all present
succeeds exactly when the email value matches that pattern — no field
other than those four is checked.  The example `not-an-email` fails and
`a@b.co` succeeds. -/
theorem claim_C3 :
    (∀ v, isObjB v = false → validateUser v = .error userMustBeObjectMsg) ∧
    (∀ fields, userRequiredFields.filter (fun f => !hasKey fields f) ≠ [] →
      validateUser (.vObj fields) =
        .error (userMissingMsg (userRequiredFields.filter (fun f => !hasKey fields f)))) ∧
    (∀ fields v, hasKey fields "id" = true → hasKey fields "name" = true →
      hasKey fields "username" = true → hasKey fields "email" = true →
      oget fields "email" = some v →
      (validateUser (.vObj fields) = .ok () ↔ codeEmailTest (jsToChars v) = true)) ∧
    validateUser (.vObj [("id", .vNum 1), ("name", .vStr "n".toList),
      ("username", .vStr "u".toList), ("email", .vStr "not-an-email".toList)]) =
      .error userEmailMsg ∧
    validateUser (.vObj [("id", .vNum 1), ("name", .vStr "n".toList),
      ("username", .vStr "u".toList), ("email", .vStr "a@b.co".toList)]) = .ok () := by
  refine ⟨validateUser_not_obj, validateUser_missing, ?_, rfl, rfl⟩
  intro fields v h1 h2 h3 h4 he
  rw [validateUser_eval fields v h1 h2 h3 h4 he]
  by_cases h : codeEmailTest (jsToChars v) <;> simp [h]

/-- Witness for C3: concrete instances of the non-object case and of the
email-pattern equivalence. -/
theorem claim_C3_witness :
    validateUser (.vBool true) = .error userMustBeObjectMsg ∧
    validateUser (.vObj [("id", .vNum 1), ("name", .vStr "n".toList),
      ("username", .vStr "u".toList), ("email", .vStr "x@y.z".toList)]) = .ok () :=
  ⟨claim_C3.1 (.vBool true) rfl,
   (claim_C3.2.2.1 [("id", .vNum 1), ("name", .vStr "n".toList),
      ("username", .vStr "u".toList), ("email", .vStr "x@y.z".toList)]
      (.vStr "x@y.z".toList) rfl rfl rfl rfl rfl).mpr rfl⟩

/-- Counterexample to C4 as stated: `validateUser` accepts a user whose
`id` is present but negative, and `validateComment` accepts a comment
whose `id` is negative and whose `postId` is zero — neither validator
checks positivity of identifiers. -/
theorem claim_C4_counterexample :
    isPosNum (.vNum (-5)) = false ∧
    validateUser (.vObj [("id", .vNum (-5)), ("name", .vStr "n".toList),
      ("username", .vStr "u".toList), ("email", .vStr "a@b.co".toList)]) = .ok () ∧
    validateComment (.vObj [("id", .vNum (-7)), ("postId", .vNum 0),
      ("name", .vStr "n".toList), ("email", .vStr "x".toList),
      ("body", .vStr "y".toList)]) = .ok () :=
  ⟨rfl, rfl, rfl⟩

/-- Claim C4 as amended: positivity of identifier fields is enforced only
by `validatePost` (for `id` and `userId`); `validateUser` succeeds for
any value of `id` whenever its four fields are present and the email
matches the pattern, and `validateComment` succeeds for any values of
`id` and `postId` whenever its five fields are present. -/
theorem claim_C4 :
    (∀ fields v, hasKey fields "id" = true → hasKey fields "userId" = true →
      hasKey fields "title" = true → hasKey fields "body" = true →
      oget fields "id" = some v → isPosNum v = false →
      validatePost (.vObj fields) = .error postIdMsg) ∧
    (∀ fields v w, hasKey fields "id" = true → hasKey fields "name" = true →
      hasKey fields "username" = true → hasKey fields "email" = true →
      oget fields "id" = some v → oget fields "email" = some w →
      codeEmailTest (jsToChars w) = true →
      validateUser (.vObj fields) = .ok ()) ∧
    (∀ fields, hasKey fields "id" = true → hasKey fields "postId" = true →
      hasKey fields "name" = true → hasKey fields "email" = true →
      hasKey fields "body" = true →
      validateComment (.vObj fields) = .ok ()) := by
  refine ⟨validatePost_bad_id, ?_, ?_⟩
  · intro fields v w h1 h2 h3 h4 _ he hmatch
    rw [validateUser_eval fields w h1 h2 h3 h4 he, hmatch]
    rfl
  · intro fields h1 h2 h3 h4 h5
    exact (validateComment_ok_iff _).mpr ⟨fields, rfl, h1, h2, h3, h4, h5⟩

/-- Witness for C4: concrete applications of all three conjuncts. -/
theorem claim_C4_witness :
    validatePost (.vObj [("id", .vBool true), ("userId", .vNum 1),
      ("title", .vStr "a".toList), ("body", .vStr "b".toList)]) = .error postIdMsg ∧
    validateUser (.vObj [("id", .vNull), ("name", .vStr "n".toList),
      ("username", .vStr "u".toList), ("email", .vStr "a@b.co".toList)]) = .ok () ∧
    validateComment (.vObj [("id", .vStr "nope".toList), ("postId", .vNum (-1)),
      ("name", .vStr "n".toList), ("email", .vStr "x".toList),
      ("body", .vStr "y".toList)]) = .ok () :=
  ⟨claim_C4.1 _ _ rfl rfl rfl rfl rfl rfl,
   claim_C4.2.1 _ .vNull _ rfl rfl rfl rfl rfl rfl rfl,
   claim_C4.2.2 _ rfl rfl rfl rfl rfl⟩

/-- Claim C5: `validateComment` succeeds exactly when its argument is an
object with the five keys `id, postId, name, email, body` present,
regardless of the types or formats of the bound values; in particular
the example with `email = "x"` succeeds. -/
theorem claim_C5 :
    (∀ v, validateComment v = .ok () ↔
      ∃ fields, v = .vObj fields ∧
        hasKey fields "id" = true ∧ hasKey fields "postId" = true ∧
        hasKey fields "name" = true ∧ hasKey fields "email" = true ∧
        hasKey fields "body" = true) ∧
    validateComment (.vObj [("id", .vNum 1), ("postId", .vNum 1),
      ("name", .vStr "n".toList), ("email", .vStr "x".toList),
      ("body", .vStr "y".toList)]) = .ok () :=
  ⟨validateComment_ok_iff, rfl⟩

/-- Counterexample to C6 as stated: `toString` lies outside the six-name
enumeration, yet `createInvalidData "toString"` returns the inherited
built-in `Object.prototype.toString` function reached through the
prototype chain — a truthy value, so the `|| \x7b\x7d` fallback never
fires — and not an empty object. -/
theorem claim_C6_counterexample :
    ("toString" ∉ ["emptyPost", "missingRequiredFields", "invalidTypes",
                   "oversizedData", "sqlInjection", "xssAttempt"]) ∧
    createInvalidData "toString" = .vFun "toString" ∧
    (.vFun "toString" : JSVal) ≠ .vObj [] :=
  ⟨by decide, rfl, fun h => JSVal.noConfusion h⟩

/-- Claim C6 as amended: `createInvalidData` returns the empty object,
without signalling, for every kind outside the six-name enumeration that
is not the name of an `Object.prototype` member; for a kind naming such
a member the bracket lookup walks the prototype chain and the inherited
member — truthy, so the fallback never fires — is returned instead; and
for each of the six enumerated kinds the fixed malformed payload is
returned. -/
theorem claim_C6 :
    (∀ kind : String,
      kind ∉ ["emptyPost", "missingRequiredFields", "invalidTypes",
              "oversizedData", "sqlInjection", "xssAttempt"] →
      protoGet kind = none →
      createInvalidData kind = .vObj []) ∧
    (∀ kind v, oget invalidPatterns kind = none → protoGet kind = some v →
      createInvalidData kind = v) ∧
    createInvalidData "toString" = .vFun "toString" ∧
    createInvalidData "constructor" = .vFun "Object" ∧
    createInvalidData "hasOwnProperty" = .vFun "hasOwnProperty" ∧
    createInvalidData "__proto__" = objectPrototype ∧
    createInvalidData "emptyPost" = .vObj [] ∧
    createInvalidData "missingRequiredFields" =
      .vObj [("title", .vStr "Only Title".toList)] ∧
    createInvalidData "invalidTypes" =
      .vObj [("userId", .vStr "not-a-number".toList), ("title", .vNum 123)] ∧
    createInvalidData "oversizedData" =
      .vObj [("title", .vStr (List.replicate 1000 'x')),
             ("body", .vStr (List.replicate 10000 'y'))] ∧
    createInvalidData "sqlInjection" =
      .vObj [("title", .vStr (Char.ofNat 39 :: "; DROP TABLE posts; --".toList)),
             ("body", .vStr "1 OR 1=1".toList)] ∧
    createInvalidData "xssAttempt" =
      .vObj [("title", .vStr "<script>alert(\"xss\")</script>".toList),
             ("body", .vStr "<img src=x onerror=alert(1)>".toList)] := by
  refine ⟨?_, ?_, rfl, rfl, rfl, rfl, rfl, rfl, rfl, rfl, rfl, rfl⟩
  · intro kind h hp
    simp only [List.mem_cons, List.not_mem_nil, or_false, not_or] at h
    obtain ⟨h1, h2, h3, h4, h5, h6⟩ := h
    simp [createInvalidData, invalidPatterns, oget, hp, Ne.symm h1, Ne.symm h2,
      Ne.symm h3, Ne.symm h4, Ne.symm h5, Ne.symm h6]
  · intro kind v hown hp
    simp [createInvalidData, hown, hp]

/-- Witness for C6: a concrete unknown kind degrades to the empty
object, and a concrete `Object.prototype` member name yields the
inherited function. -/
theorem claim_C6_witness :
    createInvalidData "unknownKind" = .vObj [] ∧
    createInvalidData "valueOf" = .vFun "valueOf" :=
  ⟨claim_C6.1 "unknownKind" (by decide) rfl,
   claim_C6.2.1 "valueOf" (.vFun "valueOf") rfl rfl⟩

/-- Claim C7: when fields are missing, `validatePost` signals one error
whose message aggregates the whole list of missing fields; field-type
violations are signalled first-only, checked in the order `id`,
`userId`, `title`, `body`; and removing any one field from the valid
example yields a failure whose message names that field. -/
theorem claim_C7 :
    (∀ fields, postRequiredFields.filter (fun f => !hasKey fields f) ≠ [] →
      validatePost (.vObj fields) =
        .error (postMissingMsg (postRequiredFields.filter (fun f => !hasKey fields f)))) ∧
    (∀ fields v, hasKey fields "id" = true → hasKey fields "userId" = true →
      hasKey fields "title" = true → hasKey fields "body" = true →
      oget fields "id" = some v → isPosNum v = false →
      validatePost (.vObj fields) = .error postIdMsg) ∧
    (∀ fields v, hasKey fields "id" = true → hasKey fields "userId" = true →
      hasKey fields "title" = true → hasKey fields "body" = true →
      (∃ n : Int, oget fields "id" = some (.vNum n) ∧ 0 < n) →
      oget fields "userId" = some v → isPosNum v = false →
      validatePost (.vObj fields) = .error postUserIdMsg) ∧
    (∀ fields v, hasKey fields "id" = true → hasKey fields "userId" = true →
      hasKey fields "title" = true → hasKey fields "body" = true →
      (∃ n : Int, oget fields "id" = some (.vNum n) ∧ 0 < n) →
      (∃ n : Int, oget fields "userId" = some (.vNum n) ∧ 0 < n) →
      oget fields "title" = some v → isNonBlankStr v = false →
      validatePost (.vObj fields) = .error postTitleMsg) ∧
    (∀ fields v, hasKey fields "id" = true → hasKey fields "userId" = true →
      hasKey fields "title" = true → hasKey fields "body" = true →
      (∃ n : Int, oget fields "id" = some (.vNum n) ∧ 0 < n) →
      (∃ n : Int, oget fields "userId" = some (.vNum n) ∧ 0 < n) →
      (∃ s, oget fields "title" = some (.vStr s) ∧ jsTrim s ≠ []) →
      oget fields "body" = some v → isNonBlankStr v = false →
      validatePost (.vObj fields) = .error postBodyMsg) ∧
    validatePost (.vObj [("userId", .vNum 1), ("title", .vStr "a".toList),
      ("body", .vStr "b".toList)]) =
      .error ("Post missing required fields: id".toList) ∧
    validatePost (.vObj [("id", .vNum 1), ("title", .vStr "a".toList),
      ("body", .vStr "b".toList)]) =
      .error ("Post missing required fields: userId".toList) ∧
    validatePost (.vObj [("id", .vNum 1), ("userId", .vNum 1),
      ("body", .vStr "b".toList)]) =
      .error ("Post missing required fields: title".toList) ∧
    validatePost (.vObj [("id", .vNum 1), ("userId", .vNum 1),
      ("title", .vStr "a".toList)]) =
      .error ("Post missing required fields: body".toList) :=
  ⟨validatePost_missing, validatePost_bad_id, validatePost_bad_userId,
   validatePost_bad_title, validatePost_bad_body, rfl, rfl, rfl, rfl⟩

/-- Witness for C7: an object missing three fields at once gets all of
them listed in one message, and a wrongly typed `userId` is reported
after a good `id`. -/
theorem claim_C7_witness :
    validatePost (.vObj [("body", .vStr "b".toList)]) =
      .error (postMissingMsg ["id", "userId", "title"]) ∧
    validatePost (.vObj [("id", .vNum 1), ("userId", .vStr "x".toList),
      ("title", .vStr "a".toList), ("body", .vStr "b".toList)]) =
      .error postUserIdMsg :=
  ⟨claim_C7.1 _ (by decide),
   claim_C7.2.2.1 _ _ rfl rfl rfl rfl ⟨1, rfl, by decide⟩ rfl rfl⟩

/-- Claim C8: `generateId` is the clock reading plus the random offset,
and distinct generated identifiers give `createUser` (with no overrides)
distinct default usernames and distinct default emails — the rendered id
is a suffix of the username and an infix of the email, and the rendering
is injective. -/
theorem claim_C8 :
    (∀ now rand : Nat, generateId now rand = now + rand) ∧
    (∀ t1 r1 t2 r2 : Nat, r1 < 1000 → r2 < 1000 →
      generateId t1 r1 ≠ generateId t2 r2 →
      ogetV (createUser (generateId t1 r1) []) "username" ≠
        ogetV (createUser (generateId t2 r2) []) "username" ∧
      ogetV (createUser (generateId t1 r1) []) "email" ≠
        ogetV (createUser (generateId t2 r2) []) "email") := by
  have hu : ∀ i : Nat, ogetV (createUser i []) "username" =
      some (.vStr ("testuser".toList ++ natChars i)) := fun i => rfl
  have he : ∀ i : Nat, ogetV (createUser i []) "email" =
      some (.vStr ("test".toList ++ (natChars i ++ "@example.com".toList))) := fun i => rfl
  refine ⟨fun _ _ => rfl, ?_⟩
  intro t1 r1 t2 r2 _ _ hne
  constructor
  · intro h
    rw [hu (generateId t1 r1), hu (generateId t2 r2)] at h
    simp only [Option.some.injEq, JSVal.vStr.injEq] at h
    exact hne (natChars_inj (List.append_cancel_left h))
  · intro h
    rw [he (generateId t1 r1), he (generateId t2 r2)] at h
    simp only [Option.some.injEq, JSVal.vStr.injEq] at h
    exact hne (natChars_inj (List.append_cancel_right (List.append_cancel_left h)))

/-- Witness for C8: two concrete clock/offset draws with distinct sums
yield distinct default usernames and emails. -/
theorem claim_C8_witness :
    ogetV (createUser (generateId 0 0) []) "username" ≠
      ogetV (createUser (generateId 1 2) []) "username" ∧
    ogetV (createUser (generateId 0 0) []) "email" ≠
      ogetV (createUser (generateId 1 2) []) "email" :=
  claim_C8.2 0 0 1 2 (by decide) (by decide) (by decide)

/-- Claim C9: the validators are deterministic functions of their
argument — two invocations on equal inputs have identical outcomes,
including identical error messages.  Freedom from mutation and from
shared state is expressed by their embedding as total functions on
values. -/
theorem claim_C9 (v w : JSVal) (h : v = w) :
    validatePost v = validatePost w ∧ validateUser v = validateUser w ∧
    validateComment v = validateComment w := by
  subst h
  exact ⟨rfl, rfl, rfl⟩

/-- Witness for C9: the determinism law at a concrete input. -/
theorem claim_C9_witness :
    validatePost .vNull = validatePost .vNull ∧
    validateUser .vNull = validateUser .vNull ∧
    validateComment .vNull = validateComment .vNull :=
  claim_C9 .vNull .vNull rfl

/-- Claim C10: whenever the overrides carry no `id` key (in particular
with no overrides at all), `createUser` returns an object without an
`id` field, and `validateUser` of that object fails with the
missing-required-fields error naming `id`. -/
theorem claim_C10 (id : Nat) (o : List (String × JSVal)) (h : hasKey o "id" = false) :
    ogetV (createUser id o) "id" = none ∧
    validateUser (createUser id o) = .error (userMissingMsg ["id"]) := by
  have hid : ogetV (createUser id o) "id" = none := by
    simp only [createUser, ogetV, oget_spreadMerge, h, Bool.false_eq_true, if_false]
    rfl
  refine ⟨hid, ?_⟩
  have hkid : hasKey (spreadMerge (userDefaults id) o) "id" = false := by
    simp [hasKey_spreadMerge, h, show hasKey (userDefaults id) "id" = false from rfl]
  have hkname : hasKey (spreadMerge (userDefaults id) o) "name" = true := by
    simp [hasKey_spreadMerge, show hasKey (userDefaults id) "name" = true from rfl]
  have hkuser : hasKey (spreadMerge (userDefaults id) o) "username" = true := by
    simp [hasKey_spreadMerge, show hasKey (userDefaults id) "username" = true from rfl]
  have hkemail : hasKey (spreadMerge (userDefaults id) o) "email" = true := by
    simp [hasKey_spreadMerge, show hasKey (userDefaults id) "email" = true from rfl]
  have hmiss : userRequiredFields.filter
      (fun f => !hasKey (spreadMerge (userDefaults id) o) f) = ["id"] := by
    simp [userRequiredFields, List.filter, hkid, hkname, hkuser, hkemail]
  have hres := validateUser_missing (spreadMerge (userDefaults id) o) (by rw [hmiss]; simp)
  rw [hmiss] at hres
  exact hres

/-- Witness for C10: the no-overrides call carries no `id` and fails
validation naming `id`. -/
theorem claim_C10_witness :
    ogetV (createUser 7 []) "id" = none ∧
    validateUser (createUser 7 []) = .error (userMissingMsg ["id"]) :=
  claim_C10 7 [] rfl

end TestData
